import Mathlib

/-!
# Verification of the intent-routing and conversational-memory core

Shallow embedding of the core logic of the AI-Agent repository
(`agent_executor.py`, `service/conversation_service.py`,
`router/chat_routes.py`) together with proofs of the specified
properties.

Conventions used throughout the embedding:
* Python strings are Lean `String`s; character-level processing works on
  `String.data` (a `List Char`).
* Python `str.lower` / `str.upper` are modelled on ASCII letters only;
  every string these proofs evaluate contains no uppercase letter outside
  ASCII, so the restriction is invisible to the claims.
* remote collaborators (Gemini, the geocoding API, the weather API) are
  function parameters returning `Option`/`Except` values; `none` /
  `Except.error` stands for the caught-exception or non-200 paths.
* machine clock readings (`asyncio.get_event_loop().time()`) are passed in
  as explicit `now` arguments.
-/

namespace AIAgent

/-! ## String helpers shared by the embedded code -/

/-- The six characters Python's `str.strip()` removes. -/
def pyIsSpace (c : Char) : Bool :=
  c == ' ' || c == '\t' || c == '\n' || c == '\r' || c == '\x0b' || c == '\x0c'

/-- Strip `pyIsSpace` characters from both ends of a character list. -/
def pyStripList (l : List Char) : List Char :=
  ((l.dropWhile pyIsSpace).reverse.dropWhile pyIsSpace).reverse

/-- Python `str.strip()`. -/
def pyStrip (s : String) : String :=
  ⟨pyStripList s.data⟩

/-- Python `str.lower`, ASCII range (sufficient for all inputs treated here). -/
def pyLower (s : String) : String :=
  ⟨s.data.map Char.toLower⟩

/-- Python `str.upper`, ASCII range. -/
def pyUpper (s : String) : String :=
  ⟨s.data.map Char.toUpper⟩

/-! ## Session Memory Store (`FallbackMemory`, agent_executor.py lines 42-102)

A turn keeps the fields of the Python message dict: role, content and the
event-loop timestamp recorded by `save_context`. -/

structure Msg where
  role : String
  content : String
  timestamp : Nat
deriving DecidableEq

/-- Per-session fallback memory: the configured pair count `k` and the
ordered list of recorded turns. -/
structure FallbackMemory where
  k : Nat
  messages : List Msg
deriving DecidableEq

/-- Python slice `l[-n:]`, including the `n = 0` quirk where `l[-0:]` is the
whole list. -/
def pyLastWindow (n : Nat) (l : List Msg) : List Msg :=
  if n = 0 then l else l.drop (l.length - n)

/-- The trimming step of `save_context`: only when the length exceeds the
bound is the list replaced by its last-`n` window. -/
def trimIfOver (n : Nat) (l : List Msg) : List Msg :=
  if l.length > n then pyLastWindow n l else l

/-- The turns appended by one `save_context` call: a user turn when the
`input` key is present, then an assistant turn when the `output` key is
present. -/
def appendedMsgs (inputs outputs : Option String) (now : Nat) : List Msg :=
  (match inputs with
    | some t => [⟨"user", t, now⟩]
    | none => []) ++
  (match outputs with
    | some t => [⟨"assistant", t, now⟩]
    | none => [])

/-- `FallbackMemory.save_context` (agent_executor.py lines 49-67): append the
present turns, then keep only the last `2 * k` messages when the bound is
exceeded. -/
def FallbackMemory.save_context (m : FallbackMemory)
    (inputs outputs : Option String) (now : Nat) : FallbackMemory :=
  { m with messages := trimIfOver (2 * m.k) (m.messages ++ appendedMsgs inputs outputs now) }

/-- Render one turn the way `load_memory_variables` does:
`f"{role}: {content}"` with the Vietnamese user label. -/
def renderMsg (msg : Msg) : String :=
  (if msg.role = "user" then "Người dùng" else "Assistant") ++ ": " ++ msg.content

/-- `'\n'.join` on a list of rendered lines. -/
def joinNL (lines : List String) : String :=
  ⟨List.intercalate "\n".data (lines.map String.data)⟩

/-- `FallbackMemory.load_memory_variables` (agent_executor.py lines 69-79):
empty history for an empty store, otherwise the newline-joined rendering of
the last `2 * k` turns. -/
def FallbackMemory.load_memory_variables (m : FallbackMemory) : String :=
  if m.messages = [] then ""
  else joinNL ((pyLastWindow (2 * m.k) m.messages).map renderMsg)

/-! ## Intent Classifier (`IntentRouterAgentExecutor._classify_intent`,
agent_executor.py lines 730-804)

Parameters: `modelAvailable` is false when the Gemini client cannot be
configured (missing key or configuration exception); `response` is the text
the model produced, with `none` standing for a raised/failed remote call or
a response object without text.  The returned pair is the label together
with a flag recording whether the remote model was invoked on this call. -/

def classify_intent (text : String) (modelAvailable : Bool)
    (response : Option String) : String × Bool :=
  if pyStrip text = "" then ("chat", false)
  else if modelAvailable = false then ("chat", false)
  else
    match response with
    | none => ("chat", true)
    | some r =>
      if r = "" then ("chat", true)
      else if "weather".data <:+: (pyLower (pyStrip r)).data then ("weather", true)
      else ("chat", true)

/-! ## Location Resolver (`WeatherAgentExecutor`, agent_executor.py) -/

/-- `unicodedata` NFKD decomposition followed by dropping combining marks
(`_strip_diacritics`, lines 444-446), written as a character table for the
Vietnamese alphabet appearing in this repository's data (đ/Đ have no
canonical decomposition and are kept unchanged). -/
def stripDiacriticChar (c : Char) : Char :=
  match c with
  | 'à' | 'á' | 'ả' | 'ã' | 'ạ'
  | 'ă' | 'ằ' | 'ắ' | 'ẳ' | 'ẵ' | 'ặ'
  | 'â' | 'ầ' | 'ấ' | 'ẩ' | 'ẫ' | 'ậ' => 'a'
  | 'À' | 'Á' | 'Ả' | 'Ã' | 'Ạ'
  | 'Ă' | 'Ằ' | 'Ắ' | 'Ẳ' | 'Ẵ' | 'Ặ'
  | 'Â' | 'Ầ' | 'Ấ' | 'Ẩ' | 'Ẫ' | 'Ậ' => 'A'
  | 'è' | 'é' | 'ẻ' | 'ẽ' | 'ẹ'
  | 'ê' | 'ề' | 'ế' | 'ể' | 'ễ' | 'ệ' => 'e'
  | 'È' | 'É' | 'Ẻ' | 'Ẽ' | 'Ẹ'
  | 'Ê' | 'Ề' | 'Ế' | 'Ể' | 'Ễ' | 'Ệ' => 'E'
  | 'ì' | 'í' | 'ỉ' | 'ĩ' | 'ị' => 'i'
  | 'Ì' | 'Í' | 'Ỉ' | 'Ĩ' | 'Ị' => 'I'
  | 'ò' | 'ó' | 'ỏ' | 'õ' | 'ọ'
  | 'ô' | 'ồ' | 'ố' | 'ổ' | 'ỗ' | 'ộ'
  | 'ơ' | 'ờ' | 'ớ' | 'ở' | 'ỡ' | 'ợ' => 'o'
  | 'Ò' | 'Ó' | 'Ỏ' | 'Õ' | 'Ọ'
  | 'Ô' | 'Ồ' | 'Ố' | 'Ổ' | 'Ỗ' | 'Ộ'
  | 'Ơ' | 'Ờ' | 'Ớ' | 'Ở' | 'Ỡ' | 'Ợ' => 'O'
  | 'ù' | 'ú' | 'ủ' | 'ũ' | 'ụ'
  | 'ư' | 'ừ' | 'ứ' | 'ử' | 'ữ' | 'ự' => 'u'
  | 'Ù' | 'Ú' | 'Ủ' | 'Ũ' | 'Ụ'
  | 'Ư' | 'Ừ' | 'Ứ' | 'Ử' | 'Ữ' | 'Ự' => 'U'
  | 'ỳ' | 'ý' | 'ỷ' | 'ỹ' | 'ỵ' => 'y'
  | 'Ỳ' | 'Ý' | 'Ỷ' | 'Ỹ' | 'Ỵ' => 'Y'
  | _ => c

/-- `WeatherAgentExecutor._strip_diacritics`. -/
def strip_diacritics (s : String) : String :=
  ⟨s.data.map stripDiacriticChar⟩

/-- An exact decimal number `mantissa / 10 ^ exponent`.  Coordinates are
never computed with in the code under study, only stored and compared, so
this exact representation of the source's decimal literals is all that is
needed. -/
structure Decimal where
  mantissa : Int
  exponent : Nat
deriving DecidableEq

instance : OfScientific Decimal :=
  ⟨fun m b e => if b then ⟨Int.ofNat m, e⟩ else ⟨Int.ofNat (m * 10 ^ e), 0⟩⟩

/-- One geocoding result item of the Open-Meteo search response. -/
structure GeoItem where
  name : String
  country_code : String
  latitude : Decimal
  longitude : Decimal
deriving DecidableEq

/-- A location-cache value: latitude, longitude, canonical display name. -/
abbrev LocEntry := Decimal × Decimal × String

/-- An insertion-ordered string-keyed table, the model of a Python dict whose
keys are kept unique by construction. -/
abbrev LocTable := List (String × LocEntry)

/-- Python dict lookup. -/
def lookupLoc (tbl : LocTable) (key : String) : Option LocEntry :=
  (tbl.find? (fun p => p.1 == key)).map (fun p => p.2)

/-- `{**base, **upd}`: base keys in base order with values overridden by
`upd`, followed by the keys only `upd` has, in `upd` order. -/
def dictMerge (base upd : LocTable) : LocTable :=
  (base.map (fun p =>
    match lookupLoc upd p.1 with
    | some v => (p.1, v)
    | none => p)) ++
  upd.filter (fun q => (base.find? (fun p => p.1 == q.1)).isNone)

/-- `MAJOR_CITIES_FALLBACK` (agent_executor.py lines 261-294), the static
fallback table, in source order. -/
def MAJOR_CITIES_FALLBACK : LocTable := [
  ("hà nội", (21.0285, 105.8542, "Hà Nội")),
  ("ha noi", (21.0285, 105.8542, "Hà Nội")),
  ("hồ chí minh", (10.8231, 106.6297, "Hồ Chí Minh")),
  ("ho chi minh", (10.8231, 106.6297, "Hồ Chí Minh")),
  ("tp hcm", (10.8231, 106.6297, "Hồ Chí Minh")),
  ("đà nẵng", (16.0544, 108.2022, "Đà Nẵng")),
  ("da nang", (16.0544, 108.2022, "Đà Nẵng")),
  ("hải phòng", (20.8449, 106.6881, "Hải Phòng")),
  ("hai phong", (20.8449, 106.6881, "Hải Phòng")),
  ("cần thơ", (10.0452, 105.7469, "Cần Thơ")),
  ("can tho", (10.0452, 105.7469, "Cần Thơ")),
  ("quảng nam", (15.5394, 108.0191, "Quảng Nam")),
  ("quang nam", (15.5394, 108.0191, "Quảng Nam")),
  ("thừa thiên huế", (16.4637, 107.5909, "Thừa Thiên Huế")),
  ("thua thien hue", (16.4637, 107.5909, "Thừa Thiên Huế")),
  ("huế", (16.4637, 107.5909, "Thừa Thiên Huế")),
  ("hue", (16.4637, 107.5909, "Thừa Thiên Huế")),
  ("khánh hòa", (12.2388, 109.1967, "Khánh Hòa")),
  ("khanh hoa", (12.2388, 109.1967, "Khánh Hòa")),
  ("nha trang", (12.2388, 109.1967, "Nha Trang")),
  ("lâm đồng", (11.9404, 108.4583, "Lâm Đồng")),
  ("lam dong", (11.9404, 108.4583, "Lâm Đồng")),
  ("đà lạt", (11.9404, 108.4583, "Đà Lạt")),
  ("da lat", (11.9404, 108.4583, "Đà Lạt")),
  ("bình dương", (11.1696, 106.6667, "Bình Dương")),
  ("binh duong", (11.1696, 106.6667, "Bình Dương")),
  ("đồng nai", (10.9574, 106.8426, "Đồng Nai")),
  ("dong nai", (10.9574, 106.8426, "Đồng Nai")),
  ("bà rịa vũng tàu", (10.5411, 107.2420, "Bà Rịa Vũng Tàu")),
  ("ba ria vung tau", (10.5411, 107.2420, "Bà Rịa Vũng Tàu")),
  ("vũng tàu", (10.3459, 107.0843, "Vũng Tàu")),
  ("vung tau", (10.3459, 107.0843, "Vũng Tàu"))]

/-- The 47 province queries of `_fetch_vietnam_provinces`
(agent_executor.py lines 326-337), in source order. -/
def vietnamQueries : List String := [
  "Hà Nội", "Hồ Chí Minh", "Đà Nẵng", "Hải Phòng", "Cần Thơ",
  "Quảng Nam", "Thừa Thiên Huế", "Khánh Hòa", "Lâm Đồng",
  "Bình Dương", "Đồng Nai", "Bà Rịa Vũng Tàu", "Vũng Tàu",
  "Nghệ An", "Thanh Hóa", "Quảng Ninh", "Bắc Ninh", "Hải Dương",
  "Vĩnh Phúc", "Thái Nguyên", "Lào Cai", "Yên Bái", "Tuyên Quang",
  "Phú Thọ", "Bắc Giang", "Quảng Bình", "Quảng Trị", "Quảng Ngãi",
  "Bình Định", "Phú Yên", "Bình Thuận", "Ninh Thuận", "Bình Phước",
  "Tây Ninh", "Long An", "Tiền Giang", "Bến Tre", "Trà Vinh",
  "Vĩnh Long", "Đồng Tháp", "An Giang", "Kiên Giang", "Cà Mau",
  "Bạc Liêu", "Sóc Trăng", "Hậu Giang", "Bình Phước", "Tây Ninh"]

/-- `if key and key not in locations: locations[key] = value`. -/
def addKey (loc : LocTable) (key : String) (v : LocEntry) : LocTable :=
  if key = "" then loc
  else if (loc.find? (fun p => p.1 == key)).isSome then loc
  else loc ++ [(key, v)]

/-- Processing of one query inside the `_fetch_vietnam_provinces` loop:
on a successful response, take the first Vietnam-tagged result and register
it under the four key variants; any failed or Vietnam-less query is skipped
(the per-query `except ... continue`). -/
def fetchOne (remote : String → Option (List GeoItem)) (loc : LocTable)
    (q : String) : LocTable :=
  match remote q with
  | none => loc
  | some results =>
    match results.find? (fun it => pyUpper it.country_code = "VN") with
    | none => loc
    | some vn =>
      let name := if vn.name = "" then q else vn.name
      let keys := [pyLower name, pyLower (strip_diacritics name),
        pyLower q, pyLower (strip_diacritics q)]
      keys.foldl (fun acc k => addKey acc k (vn.latitude, vn.longitude, name)) loc

/-- `WeatherAgentExecutor._fetch_vietnam_provinces` (lines 318-409): collect
the dynamic entries and superset-merge them over the static fallback; the
whole-request failure path (lines 401-409) returns the fallback table, which
coincides with the value computed here when every query fails. -/
def fetch_vietnam_provinces (remote : String → Option (List GeoItem)) : LocTable :=
  dictMerge MAJOR_CITIES_FALLBACK (vietnamQueries.foldl (fetchOne remote) [])

/-- `WeatherAgentExecutor._get_vietnam_locations` (lines 411-429): class
cache when non-empty and fresh, else instance cache when present and fresh,
else a fetch.  The time comparisons are abstracted into the two freshness
flags. -/
def get_vietnam_locations (classCache : LocTable) (classFresh : Bool)
    (instCache : Option LocTable) (instFresh : Bool)
    (remote : String → Option (List GeoItem)) : LocTable :=
  if classCache ≠ [] ∧ classFresh then classCache
  else
    match instCache with
    | some c => if instFresh then c else fetch_vietnam_provinces remote
    | none => fetch_vietnam_provinces remote

/-- Strip every leading and trailing occurrence of one character, the way
Python `str.strip(chars)` does for a single-character argument. -/
def stripCharEnds (c : Char) (l : List Char) : List Char :=
  ((l.dropWhile (· == c)).reverse.dropWhile (· == c)).reverse

/-- `WeatherAgentExecutor._normalize_location_with_llm` (lines 472-530):
fail-open canonicalization.  `llmResp` is the model's text (`none` when no
model is configured or the call failed).  A non-empty response is stripped
of whitespace and quotes; otherwise the original candidate is returned. -/
def normalize_location_with_llm (llmResp : Option String) (location : String) : String :=
  if pyStrip location = "" then location
  else
    match llmResp with
    | none => location
    | some r =>
      if r = "" then location
      else ⟨stripCharEnds (Char.ofNat 39) (stripCharEnds '"' (pyStrip r).data)⟩

/-- The remote-query loop at the end of `_geocode` (lines 596-636): first
query whose response has results wins; a Vietnam-tagged item is preferred,
else the first item; an empty item name falls back to the normalized
candidate. -/
def tryGeoQueries (remote : String → Option (List GeoItem)) (normalized : String) :
    List String → Option LocEntry
  | [] => none
  | q :: rest =>
    match remote q with
    | none => tryGeoQueries remote normalized rest
    | some [] => tryGeoQueries remote normalized rest
    | some (r0 :: rs) =>
      let item :=
        match (r0 :: rs).find? (fun it => pyUpper it.country_code = "VN") with
        | some vn => vn
        | none => r0
      some (item.latitude, item.longitude, if item.name = "" then normalized else item.name)

/-- `WeatherAgentExecutor._geocode` (lines 554-636): LLM normalization,
exact lookup on the lowercased stripped name, fuzzy containment match over
the cache keys in insertion order, then the remote query variants. -/
def geocode (llmResp : Option String) (locs : LocTable)
    (remote : String → Option (List GeoItem)) (location : String) : Option LocEntry :=
  let normalized := normalize_location_with_llm llmResp location
  let ll := pyStrip (pyLower normalized)
  match lookupLoc locs ll with
  | some e => some e
  | none =>
    match locs.find? (fun p =>
        decide (ll.data <:+: p.1.data) || decide (p.1.data <:+: ll.data)) with
    | some p => some p.2
    | none =>
      let queries := [normalized]
        ++ (if normalized ≠ location then [location] else [])
        ++ (if strip_diacritics normalized ≠ "" ∧ strip_diacritics normalized ≠ normalized
            then [strip_diacritics normalized] else [])
      tryGeoQueries remote normalized queries

/-- The full resolver: the cache layer feeding `_geocode`. -/
def resolve_location (llmResp : Option String)
    (classCache : LocTable) (classFresh : Bool)
    (instCache : Option LocTable) (instFresh : Bool)
    (remote : String → Option (List GeoItem)) (location : String) : Option LocEntry :=
  geocode llmResp (get_vietnam_locations classCache classFresh instCache instFresh remote)
    remote location

/-! ## Location extraction (`WeatherAgentExecutor._extract_location`,
agent_executor.py lines 448-470) -/

/-- Does `needle` match inside `hay` at offset `i`? -/
def subAt (hay needle : List Char) (i : Nat) : Bool :=
  List.isPrefixOf needle (List.drop i hay)

/-- Python `str.rfind` for a present substring: the largest offset at which
`needle` occurs in `hay`, `none` when it does not occur. -/
def rfindSub (hay needle : List Char) : Option Nat :=
  (List.range (hay.length + 1)).foldl
    (fun acc i => if subAt hay needle i then some i else acc) none

/-- The weather keywords of the extraction loop, in source order. -/
def WEATHER_KEYWORDS : List String :=
  ["thời tiết", "thoi tiet", "weather", "nhiệt độ", "nhiet do"]

/-- The punctuation class of `re.sub(r'[\.,!?;:]+', ' ', ...)`. -/
def isPunct (c : Char) : Bool :=
  c == '.' || c == ',' || c == '!' || c == '?' || c == ';' || c == ':'

/-- Replace each maximal run of punctuation by a single space (the `+` in
the regular expression).  Fuel-driven so the definition stays kernel
reducible; the initial fuel `l.length` can never run out because every step
consumes at least one character. -/
def removePunctAux : Nat → List Char → List Char
  | _, [] => []
  | 0, l => l
  | Nat.succ n, c :: cs =>
    if isPunct c then ' ' :: removePunctAux n (cs.dropWhile isPunct)
    else c :: removePunctAux n cs

/-- `re.sub(r'[\.,!?;:]+', ' ', candidate)`. -/
def removePunctRuns (l : List Char) : List Char :=
  removePunctAux l.length l

/-- The time-word alternatives of the trailing regular expression, in
pattern order. -/
def TIME_WORDS : List (List Char) :=
  ["hôm nay".data, "hom nay".data, "hiện tại".data, "hien tai".data]

/-- Word characters for the `\b` boundary (ASCII alphanumerics, underscore,
and any character beyond ASCII — the Vietnamese letters in play are all
Unicode word characters). -/
def isWordChar (c : Char) : Bool :=
  c.isAlphanum || c == '_' || decide (c.toNat ≥ 128)

/-- Try to match one time-word alternative at the head of `l`
(case-insensitive), requiring a word boundary after the match; returns the
remaining characters on success.  Every alternative begins and ends with a
word character, so the boundary before the match is checked by the
caller. -/
def matchTimeWord (l : List Char) : Option (List Char) :=
  TIME_WORDS.findSome? (fun tw =>
    if (l.take tw.length).map Char.toLower = tw then
      match l.drop tw.length with
      | [] => some []
      | r :: rest => if isWordChar r then none else some (r :: rest)
    else none)

/-- Left-to-right scan of
`re.sub(r'\b(hôm nay|hom nay|hiện tại|hien tai)\b', '', ..., re.IGNORECASE)`:
the flag records whether the current position sits at a word boundary;
after a removed match the previous character is a word character, so the
flag drops to false.  Fuel-driven for kernel reducibility; the initial fuel
`l.length` suffices because each step consumes at least one character. -/
def timeSubAux : Nat → List Char → Bool → List Char
  | _, [], _ => []
  | 0, l, _ => l
  | Nat.succ n, c :: cs, bnd =>
    if bnd then
      match matchTimeWord (c :: cs) with
      | some rest => timeSubAux n rest false
      | none => c :: timeSubAux n cs (!isWordChar c)
    else c :: timeSubAux n cs (!isWordChar c)

/-- The trailing time-word removal of `_extract_location`. -/
def removeTimeWords (l : List Char) : List Char :=
  timeSubAux l.length l true

/-- `WeatherAgentExecutor._extract_location` (lines 448-470): strip the
input, cut everything up to and including the last occurrence of the first
recognized weather keyword, collapse punctuation, strip, drop the time
words, strip again; `none` when nothing remains. -/
def extract_location (text : String) : Option String :=
  let original := pyStrip text
  if original = "" then none
  else
    let lowered := pyLower original
    let candidate :=
      match WEATHER_KEYWORDS.findSome? (fun kw =>
        (rfindSub lowered.data kw.data).map
          (fun idx => original.data.drop (idx + kw.data.length))) with
      | some rest => rest
      | none => original.data
    let candidate := pyStripList (removePunctRuns candidate)
    let candidate := pyStripList (removeTimeWords candidate)
    if candidate = [] then none else some ⟨candidate⟩

/-- The candidate left over by the stripping pipeline of
`_extract_location`, written out once more as a standalone value: the spec
reads "strips a recognized weather-keyword and lead-in, punctuation, and
trailing time words; returns none if nothing remains", and this function is
that stripped remainder. -/
def strippedTail (text : String) : List Char :=
  let original := pyStrip text
  let lowered := pyLower original
  let candidate :=
    match WEATHER_KEYWORDS.findSome? (fun kw =>
      (rfindSub lowered.data kw.data).map
        (fun idx => original.data.drop (idx + kw.data.length))) with
    | some rest => rest
    | none => original.data
  pyStripList (removeTimeWords (pyStripList (removePunctRuns candidate)))

/-! ## Weather handler (`WeatherAgentExecutor`, agent_executor.py) -/

/-- The fixed weather-code table of `_get_weather` (lines 653-666). -/
def WEATHER_CODES : List (Int × String) := [
  (0, "Trời quang"),
  (1, "Trời quang phần lớn"),
  (2, "Có mây rải rác"),
  (3, "Nhiều mây"),
  (45, "Sương mù"),
  (51, "Mưa phùn nhẹ"),
  (61, "Mưa nhẹ"),
  (63, "Mưa vừa"),
  (65, "Mưa to"),
  (71, "Tuyết nhẹ"),
  (80, "Mưa rào nhẹ"),
  (95, "Dông")]

/-- `codes.get(code, f'Mã thời tiết {code}')`. -/
def weatherCodeDesc (code : Int) : String :=
  match (WEATHER_CODES.find? (fun p => p.1 == code)).map (fun p => p.2) with
  | some d => d
  | none => s!"Mã thời tiết {code}"

/-- `WeatherAgentExecutor._get_weather` (lines 638-670).  The collaborator
response is `some (temperature, weather_code)` for a 200 response carrying a
temperature, `none` for a non-200 response or a missing temperature (both
make the method return `None`). -/
def get_weather (resp : Option (Int × Int)) : Option String :=
  match resp with
  | none => none
  | some (temp, code) =>
    some s!"Nhiệt độ hiện tại: {temp}°C — {weatherCodeDesc code}."

/-- Python `str.split()`: whitespace-separated words, empties dropped. -/
def pyWordsAux : List Char → List Char → List (List Char)
  | [], acc => if acc = [] then [] else [acc.reverse]
  | c :: cs, acc =>
    if pyIsSpace c then
      if acc = [] then pyWordsAux cs [] else acc.reverse :: pyWordsAux cs []
    else pyWordsAux cs (c :: acc)

/-- `s.split()`. -/
def pyWords (s : String) : List (List Char) :=
  pyWordsAux s.data []

/-- `WeatherAgentExecutor.execute` (lines 672-703), observed through the
reply text it enqueues plus a flag telling whether the geocoding step was
reached.  All collaborators are explicit parameters. -/
def weather_execute (llmResp : Option String)
    (classCache : LocTable) (classFresh : Bool)
    (instCache : Option LocTable) (instFresh : Bool)
    (remote : String → Option (List GeoItem))
    (weatherResp : Option (Int × Int)) (userText : String) : String × Bool :=
  match extract_location userText with
  | none => ("Bạn muốn xem thời tiết ở tỉnh/thành nào? Vui lòng nêu rõ địa danh.", false)
  | some lq =>
    if (pyWords lq).length < 1 then
      ("Bạn muốn xem thời tiết ở tỉnh/thành nào? Vui lòng nêu rõ địa danh.", false)
    else
      match resolve_location llmResp classCache classFresh instCache instFresh remote lq with
      | none => ("Không tìm thấy địa danh. Vui lòng cung cấp tên tỉnh/thành cụ thể.", true)
      | some (_, _, place) =>
        match get_weather weatherResp with
        | some w => ("Thời tiết tại " ++ place ++ ": " ++ w, true)
        | none => ("Không lấy được dữ liệu thời tiết. Vui lòng thử lại sau.", true)

/-! ## Chat handler and router (`GeminiAgentExecutor`,
`IntentRouterAgentExecutor`, agent_executor.py) -/

/-- The reply text computed by `GeminiAgentExecutor.execute` from the model
call outcome: a raised call is caught into a `Gemini call failed` string
(lines 188-189), an empty or missing text becomes the fixed no-response
reply (lines 191-192). -/
def gemini_reply (chatOutcome : Except String String) : String :=
  match chatOutcome with
  | Except.error e => "Gemini call failed: " ++ e
  | Except.ok t => if t = "" then "No response from Gemini." else t

/-- `GeminiAgentExecutor.execute` (lines 116-219) as a memory transformer
plus reply.  When the model cannot be configured the handler emits the
configuration-error reply and records nothing; otherwise it computes the
reply and saves the pair into the session memory (line 195). -/
def gemini_execute (mem : FallbackMemory) (text : String) (modelAvailable : Bool)
    (chatOutcome : Except String String) (confErr : String) (now : Nat) :
    FallbackMemory × String :=
  let userText := if text = "" then "Hello" else text
  if modelAvailable = false then (mem, "Gemini configuration error: " ++ confErr)
  else
    let reply := gemini_reply chatOutcome
    (mem.save_context (some userText) (some reply) now, reply)

/-- `IntentRouterAgentExecutor.execute` (lines 806-829): record the user
turn with an empty assistant placeholder, classify, dispatch.  The result is
the session memory afterwards, the recorded intent (`last_intent`, which the
wrapper reports as the skill label), and the reply. -/
def router_execute (mem : FallbackMemory) (text : String) (modelAvailable : Bool)
    (classifyResp : Option String) (llmLocResp : Option String)
    (classCache : LocTable) (classFresh : Bool)
    (instCache : Option LocTable) (instFresh : Bool)
    (remote : String → Option (List GeoItem)) (weatherResp : Option (Int × Int))
    (chatOutcome : Except String String) (confErr : String)
    (now1 now2 : Nat) : FallbackMemory × String × String :=
  let mem1 := mem.save_context (some text) (some "") now1
  let intent := (classify_intent text modelAvailable classifyResp).1
  if intent = "weather" then
    (mem1, intent,
      (weather_execute llmLocResp classCache classFresh instCache instFresh
        remote weatherResp text).1)
  else
    let res := gemini_execute mem1 text modelAvailable chatOutcome confErr now2
    (res.1, intent, res.2)

/-! ## Conversation logging (`service/conversation_service.py`,
`router/chat_routes.py`) -/

/-- `ConversationService.log_conversation` (lines 37-77): the whole body is
a `try` whose `except` returns `False`; `dbResult` is the outcome of the
database insert (the caching and summary helpers swallow their own
errors). -/
def log_conversation (dbResult : Except String Unit) : Bool :=
  match dbResult with
  | Except.ok _ => true
  | Except.error _ => false

/-- The fields of the `ChatResponse` the chat endpoint returns. -/
structure ChatResponseM where
  success : Bool
  message : String
  response : String
deriving DecidableEq

/-- The response-construction tail of `chat_with_agent`
(router/chat_routes.py lines 59-79): log the exchange, then return the
agent reply regardless, with `success` reporting the logging outcome. -/
def chat_with_agent (agentReply : String) (dbResult : Except String Unit) : ChatResponseM :=
  let success := log_conversation dbResult
  { success := success,
    message := if success then "Chat processed successfully"
      else "Chat processed but logging failed",
    response := agentReply }

/-! ## Helper lemmas -/

theorem trimIfOver_zero (l : List Msg) : trimIfOver 0 l = l := by
  unfold trimIfOver pyLastWindow
  split <;> simp

theorem length_trimIfOver (n : Nat) (l : List Msg) (hn : 1 ≤ n) :
    (trimIfOver n l).length = min l.length n := by
  unfold trimIfOver pyLastWindow
  split
  · rw [if_neg (by omega)]
    simp only [List.length_drop]
    omega
  · omega

theorem trimIfOver_suffix (n : Nat) (l : List Msg) : trimIfOver n l <:+ l := by
  unfold trimIfOver pyLastWindow
  split
  · split
    · exact List.suffix_rfl
    · exact List.drop_suffix _ _
  · exact List.suffix_rfl

theorem trimIfOver_eq_of_le {n : Nat} {l : List Msg} (h : l.length ≤ n) :
    trimIfOver n l = l := by
  unfold trimIfOver
  rw [if_neg (by omega)]

theorem pyLastWindow_of_le {n : Nat} {l : List Msg} (h : l.length ≤ n) :
    pyLastWindow n l = l := by
  unfold pyLastWindow
  split
  · rfl
  · rw [Nat.sub_eq_zero_of_le h, List.drop_zero]

theorem suffix_trimIfOver_append (n : Nat) (A tail : List Msg) (h : tail.length ≤ n) :
    tail <:+ trimIfOver n (A ++ tail) := by
  unfold trimIfOver pyLastWindow
  split
  · split
    · exact List.suffix_append A tail
    · rw [List.drop_append_of_le_length (by simp; omega)]
      exact List.suffix_append _ tail
  · exact List.suffix_append A tail

theorem trimIfOver_trimIfOver_append (n : Nat) (l s : List Msg)
    (hn : 1 ≤ n) (hs : s.length ≤ n) :
    trimIfOver n (trimIfOver n l ++ s) = trimIfOver n (l ++ s) := by
  by_cases h1 : l.length > n
  · have htl : trimIfOver n l = l.drop (l.length - n) := by
      unfold trimIfOver pyLastWindow
      rw [if_pos h1, if_neg (by omega)]
    have hlen : (l.drop (l.length - n)).length = n := by
      simp only [List.length_drop]
      omega
    rw [htl]
    by_cases h2 : s = []
    · subst h2
      rw [List.append_nil, List.append_nil]
      unfold trimIfOver
      rw [if_neg (by omega), if_pos h1]
      unfold pyLastWindow
      rw [if_neg (by omega)]
    · have hs1 : 1 ≤ s.length := by
        cases s with
        | nil => exact absurd rfl h2
        | cons a t => simp
      unfold trimIfOver
      rw [if_pos (by simp [hlen]; omega), if_pos (by simp; omega)]
      unfold pyLastWindow
      rw [if_neg (by omega), if_neg (by omega)]
      have e1 : (l.drop (l.length - n) ++ s).length - n = s.length := by
        simp [hlen]
      have e2 : (l ++ s).length - n = (l.length - n) + s.length := by
        simp
        omega
      rw [e1, e2]
      rw [List.drop_append_of_le_length (by omega),
        List.drop_append_of_le_length (by omega)]
      rw [List.drop_drop]
  · have h2 : trimIfOver n l = l := trimIfOver_eq_of_le (by omega)
    rw [h2]

theorem mem_intersperse {α : Type} (sep : α) :
    ∀ {l : List α} {a : α}, a ∈ l → a ∈ List.intersperse sep l
  | [], _, h => by simp at h
  | [_], _, h => by simpa using h
  | x :: y :: tl, a, h => by
    rw [List.intersperse_cons_cons]
    rcases List.mem_cons.mp h with rfl | h2
    · exact List.mem_cons_self _ _
    · exact List.mem_cons_of_mem _ (List.mem_cons_of_mem _ (mem_intersperse sep h2))

theorem infix_of_mem_intercalate {α : Type} {L : List (List α)}
    {l : List α} (sep : List α) (h : l ∈ L) : l <:+: List.intercalate sep L := by
  unfold List.intercalate
  exact List.infix_of_mem_flatten (mem_intersperse sep h)

theorem infix_joinNL {s : String} {ls : List String} (h : s ∈ ls) :
    s.data <:+: (joinNL ls).data :=
  infix_of_mem_intercalate "\n".data (List.mem_map_of_mem String.data h)

/-! ## The claims -/

/-- C1: after every `FallbackMemory.save_context` call on a session memory
with the configured pair count K = 5, the window holds at most 2K = 10
turns; turns are only ever removed from the front (FIFO: the new window is
a suffix of the old window plus the appended turns), and nothing is removed
while the bound is respected. -/
theorem save_context_bound_fifo (mem : FallbackMemory) (inputs outputs : Option String)
    (now : Nat) (hk : mem.k = 5) :
    (mem.save_context inputs outputs now).messages.length ≤ 10 ∧
    (mem.save_context inputs outputs now).messages
      <:+ mem.messages ++ appendedMsgs inputs outputs now ∧
    ((mem.messages ++ appendedMsgs inputs outputs now).length ≤ 10 →
      (mem.save_context inputs outputs now).messages
        = mem.messages ++ appendedMsgs inputs outputs now) := by
  have hmsg : (mem.save_context inputs outputs now).messages
      = trimIfOver (2 * mem.k) (mem.messages ++ appendedMsgs inputs outputs now) := rfl
  refine ⟨?_, ?_, ?_⟩
  · rw [hmsg, length_trimIfOver _ _ (by omega)]
    omega
  · rw [hmsg]
    exact trimIfOver_suffix _ _
  · intro hle
    rw [hmsg, hk]
    exact trimIfOver_eq_of_le (by omega)

/-- Witness for C1 at a concrete memory and exchange. -/
theorem save_context_bound_fifo_witness :
    ((⟨5, []⟩ : FallbackMemory).save_context (some "hi") (some "chào") 0).messages.length ≤ 10 ∧
    ((⟨5, []⟩ : FallbackMemory).save_context (some "hi") (some "chào") 0).messages
      <:+ (⟨5, []⟩ : FallbackMemory).messages ++ appendedMsgs (some "hi") (some "chào") 0 ∧
    (((⟨5, []⟩ : FallbackMemory).messages ++ appendedMsgs (some "hi") (some "chào") 0).length ≤ 10 →
      ((⟨5, []⟩ : FallbackMemory).save_context (some "hi") (some "chào") 0).messages
        = (⟨5, []⟩ : FallbackMemory).messages ++ appendedMsgs (some "hi") (some "chào") 0) :=
  save_context_bound_fifo ⟨5, []⟩ (some "hi") (some "chào") 0 rfl

/-- C2: for a non-blank input text with a configured model, the classifier
answers "weather" exactly when the token "weather" occurs (case-insensitive,
via lowercasing) as a substring of the trimmed response; a failed remote
call answers "chat". -/
theorem classify_intent_weather_iff (text r : String) (h : pyStrip text ≠ "") :
    (((classify_intent text true (some r)).1 = "weather") ↔
      "weather".data <:+: (pyLower (pyStrip r)).data) ∧
    (classify_intent text true none).1 = "chat" := by
  constructor
  · simp only [classify_intent, if_neg h]
    norm_num
    by_cases hr : r = ""
    · subst hr
      rw [if_pos rfl]
      constructor
      · intro habs
        exact absurd habs (by decide)
      · intro habs
        exact absurd habs (by decide)
    · rw [if_neg hr]
      by_cases hw : "weather".data <:+: (pyLower (pyStrip r)).data
      · rw [if_pos hw]
        simpa using hw
      · rw [if_neg hw]
        constructor
        · intro habs
          exact absurd habs (by decide)
        · intro habs
          exact absurd habs hw
  · unfold classify_intent
    rw [if_neg h]
    rfl

/-- Witness for C2 at concrete inputs: a response mentioning "WEATHER"
inside other text classifies as weather, and a failed call classifies as
chat. -/
theorem classify_intent_weather_iff_witness :
    (((classify_intent "hôm nay thế nào" true (some " The WEATHER is nice ")).1 = "weather") ↔
      "weather".data <:+: (pyLower (pyStrip " The WEATHER is nice ")).data) ∧
    (classify_intent "hôm nay thế nào" true none).1 = "chat" :=
  classify_intent_weather_iff "hôm nay thế nào" " The WEATHER is nice " (by decide)

/-- C3: a blank (empty or whitespace-only) message classifies as "chat"
and the remote model is not invoked, whatever its configuration or
behaviour. -/
theorem classify_intent_blank (text : String) (modelAvailable : Bool)
    (response : Option String) (h : pyStrip text = "") :
    classify_intent text modelAvailable response = ("chat", false) := by
  unfold classify_intent
  rw [if_pos h]

/-- Witness for C3 at the empty and at a whitespace-only message. -/
theorem classify_intent_blank_witness :
    classify_intent "" true (some "weather") = ("chat", false) ∧
    classify_intent "  " true (some "weather") = ("chat", false) :=
  ⟨classify_intent_blank "" true (some "weather") (by decide),
   classify_intent_blank "  " true (some "weather") (by decide)⟩

/-- C4: with the dynamic cache unpopulated (empty class cache, no instance
cache) and every remote call failing (geocoding queries all fail, no LLM),
resolving "Hà Nội" still succeeds through the static fallback table with
the fixed coordinates and display name. -/
theorem resolve_hanoi_static_fallback :
    resolve_location none [] false none false (fun _ => none) "Hà Nội"
      = some (21.0285, 105.8542, "Hà Nội") := by decide

/-- C5: whenever location extraction yields no candidate, the weather
handler replies with the verbatim clarification prompt and the geocoding
step is never reached, whatever the collaborators would do. -/
theorem weather_clarify_on_no_location (llmResp : Option String)
    (classCache : LocTable) (classFresh : Bool) (instCache : Option LocTable)
    (instFresh : Bool) (remote : String → Option (List GeoItem))
    (weatherResp : Option (Int × Int)) (userText : String)
    (h : extract_location userText = none) :
    weather_execute llmResp classCache classFresh instCache instFresh remote
        weatherResp userText
      = ("Bạn muốn xem thời tiết ở tỉnh/thành nào? Vui lòng nêu rõ địa danh.", false) := by
  unfold weather_execute
  rw [h]

/-- Witness for C5 at the empty message (extraction yields no candidate). -/
theorem weather_clarify_on_no_location_witness :
    weather_execute none [] false none false (fun _ => none) none ""
      = ("Bạn muốn xem thời tiết ở tỉnh/thành nào? Vui lòng nêu rõ địa danh.", false) :=
  weather_clarify_on_no_location none [] false none false (fun _ => none) none "" (by decide)

/-- C6: end-to-end routed request for "Thời tiết Hà Nội hôm nay": the
classifier returns the weather label, the geocoder returns a Vietnam result
for Hà Nội, the weather collaborator reports temperature 28 and code 0, and
the router produces skill label "weather" and the exact composed reply
(code 0 rendering as "Trời quang"). -/
theorem router_weather_end_to_end :
    (router_execute ⟨5, []⟩ "Thời tiết Hà Nội hôm nay" true (some "weather") none
        [] false none false
        (fun q => if q = "Hà Nội" then some [⟨"Hà Nội", "VN", 21.0285, 105.8542⟩] else none)
        (some (28, 0)) (Except.ok "") "" 0 0).2
      = ("weather", "Thời tiết tại Hà Nội: Nhiệt độ hiện tại: 28°C — Trời quang.") ∧
    weatherCodeDesc 0 = "Trời quang" ∧ weatherCodeDesc 42 = "Mã thời tiết 42" := by
  refine ⟨by decide, by decide, by decide⟩

/-- C7: recording a turn and then rendering the session history shows both
the user text (prefixed "Người dùng: ") and the assistant text (prefixed
"Assistant: ") verbatim as substrings, for any memory with a positive pair
count. -/
theorem memory_round_trip (mem : FallbackMemory) (t out : String) (now : Nat)
    (hk : 1 ≤ mem.k) :
    ("Người dùng: " ++ t).data <:+:
      ((mem.save_context (some t) (some out) now).load_memory_variables).data ∧
    ("Assistant: " ++ out).data <:+:
      ((mem.save_context (some t) (some out) now).load_memory_variables).data := by
  have happ : appendedMsgs (some t) (some out) now
      = [⟨"user", t, now⟩, ⟨"assistant", out, now⟩] := rfl
  have hmsg : (mem.save_context (some t) (some out) now).messages
      = trimIfOver (2 * mem.k)
          (mem.messages ++ [⟨"user", t, now⟩, ⟨"assistant", out, now⟩]) := by
    rw [← happ]
    rfl
  have hsuffix : [(⟨"user", t, now⟩ : Msg), ⟨"assistant", out, now⟩]
      <:+ (mem.save_context (some t) (some out) now).messages := by
    rw [hmsg]
    exact suffix_trimIfOver_append _ _ _ (by simp; omega)
  have hne : (mem.save_context (some t) (some out) now).messages ≠ [] := by
    intro habs
    rw [habs] at hsuffix
    exact absurd (List.suffix_nil.mp hsuffix) (by simp)
  have hlen : (mem.save_context (some t) (some out) now).messages.length
      ≤ 2 * (mem.save_context (some t) (some out) now).k := by
    rw [hmsg]
    show (trimIfOver (2 * mem.k) _).length ≤ 2 * mem.k
    rw [length_trimIfOver _ _ (by omega)]
    omega
  have hload : (mem.save_context (some t) (some out) now).load_memory_variables
      = joinNL ((mem.save_context (some t) (some out) now).messages.map renderMsg) := by
    unfold FallbackMemory.load_memory_variables
    rw [if_neg hne, pyLastWindow_of_le hlen]
  rw [hload]
  constructor
  · have hmem : (⟨"user", t, now⟩ : Msg)
        ∈ (mem.save_context (some t) (some out) now).messages :=
      hsuffix.subset (by simp)
    have hr : renderMsg ⟨"user", t, now⟩ = "Người dùng: " ++ t := rfl
    exact infix_joinNL (hr ▸ List.mem_map_of_mem renderMsg hmem)
  · have hmem : (⟨"assistant", out, now⟩ : Msg)
        ∈ (mem.save_context (some t) (some out) now).messages :=
      hsuffix.subset (by simp)
    have hr : renderMsg ⟨"assistant", out, now⟩ = "Assistant: " ++ out := rfl
    exact infix_joinNL (hr ▸ List.mem_map_of_mem renderMsg hmem)

/-- Witness for C7 at a concrete session. -/
theorem memory_round_trip_witness :
    ("Người dùng: " ++ "trời đẹp").data <:+:
      (((⟨5, []⟩ : FallbackMemory).save_context (some "trời đẹp") (some "vâng") 7).load_memory_variables).data ∧
    ("Assistant: " ++ "vâng").data <:+:
      (((⟨5, []⟩ : FallbackMemory).save_context (some "trời đẹp") (some "vâng") 7).load_memory_variables).data :=
  memory_round_trip ⟨5, []⟩ "trời đẹp" "vâng" 7 (by decide)

/-- C8: `_extract_location` returns exactly the candidate left over by the
stripping pipeline (weather-keyword cut, punctuation collapse, trailing
time-word removal, stripping), and `none` precisely when nothing remains. -/
theorem extract_location_strips (text : String) :
    extract_location text =
      if strippedTail text = [] then none else some ⟨strippedTail text⟩ := by
  by_cases h : pyStrip text = ""
  · have h2 : strippedTail text = [] := by
      unfold strippedTail
      rw [h]
      decide
    rw [h2]
    unfold extract_location
    rw [if_pos h]
    simp
  · unfold extract_location strippedTail
    rw [if_neg h]

/-- C9: a failing conversation-logging collaborator makes
`log_conversation` return `False` rather than raise, and the chat endpoint
still returns the agent's reply, with `success = False`. -/
theorem log_failure_does_not_fail_request (e : String) (agentReply : String) :
    log_conversation (Except.error e) = false ∧
    (chat_with_agent agentReply (Except.error e)).success = false ∧
    (chat_with_agent agentReply (Except.error e)).response = agentReply :=
  ⟨rfl, rfl, rfl⟩

/-- C10, counterexample: with a session whose window is already full (ten
turns at K = 5), routing a non-empty chat message does NOT grow the window
by four turns — the FIFO bound keeps its length at ten. -/
theorem router_chat_full_window_no_gain :
    ¬ ((router_execute ⟨5, List.replicate 10 ⟨"user", "x", 0⟩⟩ "xin chào" true
          (some "chat") none [] false none false (fun _ => none) none
          (Except.ok "Chào bạn!") "" 1 2).1.messages.length
        = (⟨5, List.replicate 10 (⟨"user", "x", 0⟩ : Msg)⟩ : FallbackMemory).messages.length + 4) := by
  decide

/-- C10, amended: for a non-empty message routed to the chat skill, four
turns are appended — the router's (user, empty placeholder) pair and the
chat handler's (user, reply) pair, so the user text enters at least twice —
and the window is then trimmed to the 2K bound, its new length being
min(old + 4, 2K). -/
theorem router_chat_memory_growth (mem : FallbackMemory) (text : String)
    (classifyResp : Option String) (chatOutcome : Except String String)
    (confErr : String) (now1 now2 : Nat) (hk : 2 ≤ mem.k)
    (htext : pyStrip text ≠ "")
    (hchat : (classify_intent text true classifyResp).1 = "chat") :
    (router_execute mem text true classifyResp none [] false none false
        (fun _ => none) none chatOutcome confErr now1 now2).1.messages
      = trimIfOver (2 * mem.k) (mem.messages ++
          [⟨"user", text, now1⟩, ⟨"assistant", "", now1⟩,
           ⟨"user", text, now2⟩, ⟨"assistant", gemini_reply chatOutcome, now2⟩]) ∧
    (router_execute mem text true classifyResp none [] false none false
        (fun _ => none) none chatOutcome confErr now1 now2).1.messages.length
      = min (mem.messages.length + 4) (2 * mem.k) ∧
    2 ≤ ((router_execute mem text true classifyResp none [] false none false
        (fun _ => none) none chatOutcome confErr now1 now2).1.messages.countP
          (fun m => m.role == "user" && m.content == text)) ∧
    (router_execute mem text true classifyResp none [] false none false
        (fun _ => none) none chatOutcome confErr now1 now2).2.1 = "chat" := by
  have htxt0 : text ≠ "" := by
    intro he
    exact htext (by rw [he]; rfl)
  have hroute : (router_execute mem text true classifyResp none [] false none false
        (fun _ => none) none chatOutcome confErr now1 now2)
      = ((mem.save_context (some text) (some "") now1).save_context
           (some text) (some (gemini_reply chatOutcome)) now2,
         "chat", gemini_reply chatOutcome) := by
    unfold router_execute
    rw [hchat]
    rw [if_neg (by decide : ¬ ("chat" : String) = "weather")]
    unfold gemini_execute
    rw [if_neg htxt0]
    norm_num
  rw [hroute]
  have hmsgs : ((mem.save_context (some text) (some "") now1).save_context
        (some text) (some (gemini_reply chatOutcome)) now2).messages
      = trimIfOver (2 * mem.k) (mem.messages ++
          [⟨"user", text, now1⟩, ⟨"assistant", "", now1⟩,
           ⟨"user", text, now2⟩, ⟨"assistant", gemini_reply chatOutcome, now2⟩]) := by
    show trimIfOver (2 * mem.k)
        (trimIfOver (2 * mem.k) (mem.messages ++ appendedMsgs (some text) (some "") now1)
          ++ appendedMsgs (some text) (some (gemini_reply chatOutcome)) now2) = _
    rw [trimIfOver_trimIfOver_append _ _ _ (by omega) (by simp [appendedMsgs]; omega)]
    rw [List.append_assoc]
    rfl
  refine ⟨hmsgs, ?_, ?_, rfl⟩
  · rw [hmsgs, length_trimIfOver _ _ (by omega)]
    simp
  · rw [hmsgs]
    have hsuf : [(⟨"user", text, now1⟩ : Msg), ⟨"assistant", "", now1⟩,
          ⟨"user", text, now2⟩, ⟨"assistant", gemini_reply chatOutcome, now2⟩]
        <:+ trimIfOver (2 * mem.k) (mem.messages ++
          [⟨"user", text, now1⟩, ⟨"assistant", "", now1⟩,
           ⟨"user", text, now2⟩, ⟨"assistant", gemini_reply chatOutcome, now2⟩]) :=
      suffix_trimIfOver_append _ _ _ (by simp; omega)
    obtain ⟨pre, hpre⟩ := hsuf
    rw [← hpre, List.countP_append]
    have hfour : List.countP (fun m => m.role == "user" && m.content == text)
        [(⟨"user", text, now1⟩ : Msg), ⟨"assistant", "", now1⟩,
         ⟨"user", text, now2⟩, ⟨"assistant", gemini_reply chatOutcome, now2⟩] = 2 := by
      simp [List.countP_cons]
    omega

/-- Witness for the amended C10 at a concrete chat-routed request. -/
theorem router_chat_memory_growth_witness :
    (router_execute ⟨5, []⟩ "xin chào" true (some "chat") none [] false none false
        (fun _ => none) none (Except.ok "Chào bạn!") "" 1 2).1.messages
      = trimIfOver (2 * (5 : Nat)) (([] : List Msg) ++
          [⟨"user", "xin chào", 1⟩, ⟨"assistant", "", 1⟩,
           ⟨"user", "xin chào", 2⟩, ⟨"assistant", gemini_reply (Except.ok "Chào bạn!"), 2⟩]) ∧
    (router_execute ⟨5, []⟩ "xin chào" true (some "chat") none [] false none false
        (fun _ => none) none (Except.ok "Chào bạn!") "" 1 2).1.messages.length
      = min (([] : List Msg).length + 4) (2 * (5 : Nat)) ∧
    2 ≤ ((router_execute ⟨5, []⟩ "xin chào" true (some "chat") none [] false none false
        (fun _ => none) none (Except.ok "Chào bạn!") "" 1 2).1.messages.countP
          (fun m => m.role == "user" && m.content == "xin chào")) ∧
    (router_execute ⟨5, []⟩ "xin chào" true (some "chat") none [] false none false
        (fun _ => none) none (Except.ok "Chào bạn!") "" 1 2).2.1 = "chat" :=
  router_chat_memory_growth ⟨5, []⟩ "xin chào" (some "chat") (Except.ok "Chào bạn!") "" 1 2
    (by decide) (by decide) (by decide)

end AIAgent
